import Mathlib

/-!
Shallow embedding of the Kohi engine's Vulkan renderer core: device
selection and queue-family assignment (vulkan_device.c), logical-device
queue construction, swapchain lifecycle (vulkan_swapchain.c), image
resource management (vulkan_image.c), and backend shutdown ordering
(vulkan_backend.c). Machine integers are modelled as Nat; the C sentinel
(u32)-1 used for an unassigned queue family is the explicit constant
4294967295. Driver calls (vkGetDeviceQueue, vkAcquireNextImageKHR,
vkGetSwapchainImagesKHR, surface-support queries) are modelled as inputs,
and side-effecting destruction is modelled as an explicit list of emitted
destruction calls.
-/

namespace Kohi

/-- VK_QUEUE_GRAPHICS_BIT from the Vulkan headers. -/
def VK_QUEUE_GRAPHICS_BIT : Nat := 1

/-- VK_QUEUE_COMPUTE_BIT from the Vulkan headers. -/
def VK_QUEUE_COMPUTE_BIT : Nat := 2

/-- VK_QUEUE_TRANSFER_BIT from the Vulkan headers. -/
def VK_QUEUE_TRANSFER_BIT : Nat := 4

/-- The u32 value (u32)-1 that vulkan_device.c stores for an unassigned
queue-family index and compares against with `!= -1`. -/
def UNASSIGNED : Nat := 4294967295

/-- One queue family of a candidate physical device, as the scan in
find_device_queue_family_indexes observes it: its capability bitset
(VkQueueFamilyProperties.queueFlags) and the result of the per-family
vkGetPhysicalDeviceSurfaceSupportKHR query against the target surface. -/
structure VkQueueFamilyProperties where
  queueFlags : Nat
  supportsPresent : Bool
deriving DecidableEq, Repr

/-- vulkan_physical_device_queue_family_info from vulkan_device.c: the four
role-to-family-index assignments. -/
structure vulkan_physical_device_queue_family_info where
  graphics_family_index : Nat
  present_family_index : Nat
  compute_family_index : Nat
  transfer_family_index : Nat
deriving DecidableEq, Repr

/-- One iteration of the family loop in find_device_queue_family_indexes
(vulkan_device.c lines 466-497) at family index `i`: graphics and compute
assignments overwrite on every matching family while bumping the running
transfer score, transfer is assigned when its score is at most the running
minimum, and present is assigned whenever the surface query succeeds.
Returns the updated (min_transfer_score, info) pair. -/
def scan_family (i : Nat) (f : VkQueueFamilyProperties) (min_transfer_score : Nat)
    (info : vulkan_physical_device_queue_family_info) :
    Nat × vulkan_physical_device_queue_family_info :=
  let info1 := if f.queueFlags &&& VK_QUEUE_GRAPHICS_BIT != 0 then
      { info with graphics_family_index := i } else info
  let score1 : Nat := if f.queueFlags &&& VK_QUEUE_GRAPHICS_BIT != 0 then 1 else 0
  let info2 := if f.queueFlags &&& VK_QUEUE_COMPUTE_BIT != 0 then
      { info1 with compute_family_index := i } else info1
  let score2 : Nat := if f.queueFlags &&& VK_QUEUE_COMPUTE_BIT != 0 then score1 + 1 else score1
  let step3 : Nat × vulkan_physical_device_queue_family_info :=
    if f.queueFlags &&& VK_QUEUE_TRANSFER_BIT != 0 then
      if score2 ≤ min_transfer_score then
        (score2, { info2 with transfer_family_index := i })
      else (min_transfer_score, info2)
    else (min_transfer_score, info2)
  let info4 := if f.supportsPresent then
      { step3.2 with present_family_index := i } else step3.2
  (step3.1, info4)

/-- The family loop of find_device_queue_family_indexes, scanning the
remaining families starting at index `i` with the running
min_transfer_score and the info accumulated so far. -/
def find_loop : List VkQueueFamilyProperties → Nat → Nat →
    vulkan_physical_device_queue_family_info → vulkan_physical_device_queue_family_info
  | [], _, _, info => info
  | f :: rest, i, m, info =>
    let s := scan_family i f m info
    find_loop rest (i + 1) s.1 s.2

/-- find_device_queue_family_indexes (vulkan_device.c lines 447-498): all
four indices start at (u32)-1, min_transfer_score starts at 255, and every
queue family is scanned once in enumeration order. -/
def find_device_queue_family_indexes (families : List VkQueueFamilyProperties) :
    vulkan_physical_device_queue_family_info :=
  find_loop families 0 255
    { graphics_family_index := UNASSIGNED, present_family_index := UNASSIGNED,
      compute_family_index := UNASSIGNED, transfer_family_index := UNASSIGNED }

/-- Modelled from the spec's words for comparison: the index of the FIRST
family (from position `i`) satisfying `p`, or UNASSIGNED if none does. -/
def first_index_with (p : VkQueueFamilyProperties → Bool) :
    List VkQueueFamilyProperties → Nat → Nat
  | [], _ => UNASSIGNED
  | f :: rest, i => if p f then i else first_index_with p rest (i + 1)

/-- The index of the LAST family (from position `i`) satisfying `p`, with
`acc` the answer for the families already scanned; used to characterise the
overwrite-on-every-match behaviour of the scan. -/
def last_index_with (p : VkQueueFamilyProperties → Bool) :
    List VkQueueFamilyProperties → Nat → Nat → Nat
  | [], _, acc => acc
  | f :: rest, i, acc => last_index_with p rest (i + 1) (if p f then i else acc)

/-- The deduplicated queue-family index list built by vulkan_device_create
(vulkan_device.c lines 66-86): the graphics index always, then the present
index unless it equals the graphics index, then the transfer index unless
it equals the graphics index. Present and transfer are never compared with
each other. -/
def device_queue_indicies (graphics_queue_index present_queue_index transfer_queue_index : Nat) :
    List Nat :=
  let present_shares_graphics_queue := graphics_queue_index == present_queue_index
  let transfer_shares_graphics_queue := graphics_queue_index == transfer_queue_index
  [graphics_queue_index]
    ++ (if present_shares_graphics_queue then [] else [present_queue_index])
    ++ (if transfer_shares_graphics_queue then [] else [transfer_queue_index])

/-- The fields of a VkDeviceQueueCreateInfo that vulkan_device_create
fills per emitted request (the 1.0f priority is the exact rational 1). -/
structure VkDeviceQueueCreateInfo where
  queueFamilyIndex : Nat
  queueCount : Nat
  queuePriority : Rat
deriving DecidableEq, Repr

/-- The queue-creation request array built by vulkan_device_create
(vulkan_device.c lines 88-103): one request per entry of
device_queue_indicies, each with queueCount 1 and priority 1.0. -/
def queue_create_infos (g p t : Nat) : List VkDeviceQueueCreateInfo :=
  (device_queue_indicies g p t).map
    (fun idx => { queueFamilyIndex := idx, queueCount := 1, queuePriority := 1 })

/-- The three vkGetDeviceQueue retrievals after logical-device creation
(vulkan_device.c lines 131-148), with the driver's vkGetDeviceQueue
modelled as `getDeviceQueue familyIndex queueIndex`. The source passes
present_queue_index for BOTH the present queue and the transfer queue.
Returns (graphics_queue, present_queue, transfer_queue). -/
def vulkan_device_obtain_queues (getDeviceQueue : Nat → Nat → Nat)
    (graphics_queue_index present_queue_index transfer_queue_index : Nat) :
    Nat × Nat × Nat :=
  (getDeviceQueue graphics_queue_index 0,
   getDeviceQueue present_queue_index 0,
   getDeviceQueue present_queue_index 0)

/-- VK_PHYSICAL_DEVICE_TYPE_DISCRETE_GPU from the Vulkan headers. -/
def VK_PHYSICAL_DEVICE_TYPE_DISCRETE_GPU : Nat := 2

/-- The property fields of VkPhysicalDeviceProperties that the selection
logic reads. -/
structure VkPhysicalDeviceProperties where
  deviceType : Nat
deriving DecidableEq, Repr

/-- The feature fields of VkPhysicalDeviceFeatures that the selection
logic reads. -/
structure VkPhysicalDeviceFeatures where
  samplerAnisotropy : Bool
deriving DecidableEq, Repr

/-- vulkan_physical_device_requirements from vulkan_device.c; the
device_extension_names darray pointer may be null (none). -/
structure vulkan_physical_device_requirements where
  graphics : Bool
  present : Bool
  compute : Bool
  transfer : Bool
  device_extension_names : Option (List String)
  sampler_anisotropy : Bool
  discrete_gpu : Bool
deriving DecidableEq, Repr

/-- The queryable state of a candidate physical device: its queue families
(with per-family surface-support results folded in) and its available
device-extension names as enumerated by vkEnumerateDeviceExtensionProperties. -/
structure VulkanPhysicalDevice where
  queue_families : List VkQueueFamilyProperties
  available_extensions : List String
deriving DecidableEq, Repr

/-- vulkan_swapchain_support_info as far as the requirement checks read
it: the surface-format list and present-mode list (elements abstracted to
codes; only identity and count matter to the checks modelled here). -/
structure vulkan_swapchain_support_info where
  formats : List (Nat × Nat)
  present_modes : List Nat
deriving DecidableEq, Repr

/-- strings_equal from kstring.c: case-sensitive exact string equality. -/
def strings_equal (a b : String) : Bool := a == b

/-- extension_requirements_match (vulkan_device.c lines 525-571): with a
null requirement list the check passes; otherwise, when the candidate's
available-extension list is non-empty, every required name is searched for
by exact match and the first missing one rejects; when the available list
is empty the search loop is never entered and the check passes. -/
def extension_requirements_match (device : VulkanPhysicalDevice)
    (requirements : vulkan_physical_device_requirements) : Bool :=
  match requirements.device_extension_names with
  | none => true
  | some required =>
    if device.available_extensions.length != 0 then
      required.all (fun r => device.available_extensions.any (fun a => strings_equal r a))
    else true

/-- queue_requirements_match (vulkan_device.c lines 500-523): runs the
family scan and accepts when every required role ended up assigned
(compared against (u32)-1). Returns the scan result together with the
boolean verdict. -/
def queue_requirements_match (device : VulkanPhysicalDevice)
    (requirements : vulkan_physical_device_requirements) :
    vulkan_physical_device_queue_family_info × Bool :=
  let info := find_device_queue_family_indexes device.queue_families
  let graphics_ok := !requirements.graphics || info.graphics_family_index != UNASSIGNED
  let present_ok := !requirements.present || info.present_family_index != UNASSIGNED
  let compute_ok := !requirements.compute || info.compute_family_index != UNASSIGNED
  let transfer_ok := !requirements.transfer || info.transfer_family_index != UNASSIGNED
  (info, graphics_ok && present_ok && compute_ok && transfer_ok)

/-- swapchain_requirements_match (vulkan_device.c lines 573-597): rejects
when either the format list or the present-mode list is empty. -/
def swapchain_requirements_match (support : vulkan_swapchain_support_info) : Bool :=
  !(support.formats.length < 1 || support.present_modes.length < 1)

/-- vulkan_physical_device_meets_requirements (vulkan_device.c lines
321-378): discrete-GPU filter, queue-requirement check, swapchain-support
check, extension check, then sampler-anisotropy check, in source order;
`support` is the result the swapchain query writes for the candidate. -/
def vulkan_physical_device_meets_requirements (device : VulkanPhysicalDevice)
    (properties : VkPhysicalDeviceProperties) (features : VkPhysicalDeviceFeatures)
    (requirements : vulkan_physical_device_requirements)
    (support : vulkan_swapchain_support_info) : Bool :=
  if requirements.discrete_gpu && properties.deviceType != VK_PHYSICAL_DEVICE_TYPE_DISCRETE_GPU then
    false
  else if !(queue_requirements_match device requirements).2 then
    false
  else if !swapchain_requirements_match support then
    false
  else if !extension_requirements_match device requirements then
    false
  else if requirements.sampler_anisotropy && !features.samplerAnisotropy then
    false
  else
    true

/-- VK_SUCCESS from the Vulkan headers. -/
def VK_SUCCESS : Int := 0

/-- VK_SUBOPTIMAL_KHR from the Vulkan headers. -/
def VK_SUBOPTIMAL_KHR : Int := 1000001003

/-- VK_ERROR_OUT_OF_DATE_KHR from the Vulkan headers. -/
def VK_ERROR_OUT_OF_DATE_KHR : Int := -1000001004

/-- VK_ERROR_DEVICE_LOST from the Vulkan headers; a representative result
that is neither success, suboptimal, nor out-of-date. -/
def VK_ERROR_DEVICE_LOST : Int := -4

/-- The observable effect of one vulkan_swapchain_acquire_next_image_index
call: whether the swapchain was recreated, whether the fatal-error log was
emitted, and the b8 value returned to the caller. -/
structure AcquireOutcome where
  recreated : Bool
  fatalLogged : Bool
  ret : Bool
deriving DecidableEq, Repr

/-- vulkan_swapchain_acquire_next_image_index (vulkan_swapchain.c lines
37-64) as a function of the VkResult the underlying vkAcquireNextImageKHR
call returned: out-of-date recreates and returns FALSE; any result that is
neither VK_SUCCESS nor VK_SUBOPTIMAL_KHR logs fatally and returns FALSE;
otherwise (success or suboptimal) it returns TRUE with the acquired image
index left in the out parameter. -/
def vulkan_swapchain_acquire_next_image_index (result : Int) : AcquireOutcome :=
  if result = VK_ERROR_OUT_OF_DATE_KHR then
    { recreated := true, fatalLogged := false, ret := false }
  else if result ≠ VK_SUCCESS ∧ result ≠ VK_SUBOPTIMAL_KHR then
    { recreated := false, fatalLogged := true, ret := false }
  else
    { recreated := false, fatalLogged := false, ret := true }

/-- The image-count negotiation in the swapchain create function
(vulkan_swapchain.c lines 138-143): start from minImageCount + 1 and
replace it with maxImageCount when that is nonzero and exceeded. -/
def swapchain_image_count (minImageCount maxImageCount : Nat) : Nat :=
  let image_count := minImageCount + 1
  if maxImageCount > 0 ∧ image_count > maxImageCount then maxImageCount else image_count

/-- vulkan_image from vulkan_types.inl: handle, backing memory, optional
view (0 models a null handle) and dimensions. -/
structure vulkan_image where
  handle : Nat
  memory : Nat
  view : Nat
  width : Nat
  height : Nat
deriving DecidableEq, Repr

/-- A destruction call emitted to the driver, recorded so that destruction
order and idempotence are observable. -/
inductive VulkanDestroyCall where
  | destroyImageView (view : Nat)
  | freeMemory (memory : Nat)
  | destroyImage (handle : Nat)
  | destroySwapchainKHR (handle : Nat)
deriving DecidableEq, Repr

/-- vulkan_image_destroy (vulkan_image.c lines 89-105): destroy the view,
then the memory, then the image handle, each step guarded by a null check
and nulling the field it destroys. Returns the updated image and the list
of destruction calls emitted, in order. -/
def vulkan_image_destroy (image : vulkan_image) : vulkan_image × List VulkanDestroyCall :=
  let s1 := if image.view ≠ 0 then
      ({ image with view := 0 }, [VulkanDestroyCall.destroyImageView image.view])
    else (image, [])
  let s2 := if s1.1.memory ≠ 0 then
      ({ s1.1 with memory := 0 }, s1.2 ++ [VulkanDestroyCall.freeMemory s1.1.memory])
    else s1
  let s3 := if s2.1.handle ≠ 0 then
      ({ s2.1 with handle := 0 }, s2.2 ++ [VulkanDestroyCall.destroyImage s2.1.handle])
    else s2
  s3

/-- vulkan_swapchain from vulkan_types.inl as far as the lifecycle claims
read it: the chain handle, the image count, the images and views array
pointers (none models a null pointer, some holds the array contents), and
the owned depth attachment. -/
structure vulkan_swapchain where
  handle : Nat
  image_count : Nat
  images : Option (List Nat)
  views : Option (List Nat)
  depth_attachment : vulkan_image
  max_frames_in_flight : Nat
deriving DecidableEq, Repr

/-- The static destroy function of vulkan_swapchain.c (lines 242-252),
used by both vulkan_swapchain_destroy and vulkan_swapchain_recreate:
destroys the depth attachment, then the first image_count view handles,
then the chain handle. It touches no other field of the structure. -/
def swapchain_destroy (sw : vulkan_swapchain) : vulkan_swapchain × List VulkanDestroyCall :=
  let depth := vulkan_image_destroy sw.depth_attachment
  let view_calls := ((sw.views.getD []).take sw.image_count).map VulkanDestroyCall.destroyImageView
  ({ sw with depth_attachment := depth.1 },
   depth.2 ++ view_calls ++ [VulkanDestroyCall.destroySwapchainKHR sw.handle])

/-- The image-fetch step of the static create function
(vulkan_swapchain.c lines 190-200 and the view loop at 203-217):
image_count is set from the vkGetSwapchainImagesKHR query (modelled by the
`driver_images` list), each array is allocated only when its pointer is
null, the images array is filled with the driver's handles and the views
array with one created view per image (`view_of` models
vkCreateImageView). Returns the updated swapchain and, for each array,
whether a fresh allocation was performed. -/
def swapchain_create_fetch_images (driver_images : List Nat) (view_of : Nat → Nat)
    (sw : vulkan_swapchain) : vulkan_swapchain × Bool × Bool :=
  let images_allocated := sw.images.isNone
  let views_allocated := sw.views.isNone
  ({ sw with image_count := driver_images.length,
             images := some driver_images,
             views := some (driver_images.map view_of) },
   images_allocated, views_allocated)

/-- vulkan_swapchain_recreate (vulkan_swapchain.c lines 20-28) restricted
to the array-management steps the claims are about: the static destroy
followed by the image-fetch step of the static create, on the same
swapchain structure. -/
def vulkan_swapchain_recreate_images (driver_images : List Nat) (view_of : Nat → Nat)
    (sw : vulkan_swapchain) : vulkan_swapchain × Bool × Bool :=
  swapchain_create_fetch_images driver_images view_of (swapchain_destroy sw).1

/-- The resources the Vulkan backend constructs and tears down. -/
inductive VulkanResource where
  | inst
  | debugMessenger
  | surface
  | device
  | swapchain
deriving DecidableEq, Repr

/-- The construction order of vulkan_renderer_backend's startup
(vulkan_backend.c lines 20-143): instance, debug messenger (debug builds
only), surface, device. No swapchain is created by this backend version. -/
def backend_startup_order (debug_build : Bool) : List VulkanResource :=
  [VulkanResource.inst]
    ++ (if debug_build then [VulkanResource.debugMessenger] else [])
    ++ [VulkanResource.surface, VulkanResource.device]

/-- vulkan_renderer_backend_shutdown (vulkan_backend.c lines 145-167): the
logical device is destroyed first, then the surface when non-null, then
the debug messenger (debug builds, when non-null), then the instance. -/
def vulkan_renderer_backend_shutdown_order (debug_build surface_present messenger_present : Bool) :
    List VulkanResource :=
  [VulkanResource.device]
    ++ (if surface_present then [VulkanResource.surface] else [])
    ++ (if debug_build && messenger_present then [VulkanResource.debugMessenger] else [])
    ++ [VulkanResource.inst]

/-! ### Helper lemmas about the queue-family scan -/

theorem scan_family_graphics (i : Nat) (f : VkQueueFamilyProperties) (m : Nat)
    (info : vulkan_physical_device_queue_family_info) :
    (scan_family i f m info).2.graphics_family_index =
      if f.queueFlags &&& VK_QUEUE_GRAPHICS_BIT != 0 then i else info.graphics_family_index := by
  simp only [scan_family]
  split_ifs <;> rfl

theorem scan_family_compute (i : Nat) (f : VkQueueFamilyProperties) (m : Nat)
    (info : vulkan_physical_device_queue_family_info) :
    (scan_family i f m info).2.compute_family_index =
      if f.queueFlags &&& VK_QUEUE_COMPUTE_BIT != 0 then i else info.compute_family_index := by
  simp only [scan_family]
  split_ifs <;> rfl

theorem scan_family_present (i : Nat) (f : VkQueueFamilyProperties) (m : Nat)
    (info : vulkan_physical_device_queue_family_info) :
    (scan_family i f m info).2.present_family_index =
      if f.supportsPresent then i else info.present_family_index := by
  simp only [scan_family]
  split_ifs <;> rfl

theorem scan_family_transfer_cases (i : Nat) (f : VkQueueFamilyProperties) (m : Nat)
    (info : vulkan_physical_device_queue_family_info) :
    (scan_family i f m info).2.transfer_family_index = info.transfer_family_index ∨
      ((scan_family i f m info).2.transfer_family_index = i ∧
        (f.queueFlags &&& VK_QUEUE_TRANSFER_BIT != 0) = true) := by
  simp only [scan_family]
  split_ifs <;> simp_all

theorem find_loop_cons (f : VkQueueFamilyProperties) (rest : List VkQueueFamilyProperties)
    (i m : Nat) (info : vulkan_physical_device_queue_family_info) :
    find_loop (f :: rest) i m info =
      find_loop rest (i + 1) (scan_family i f m info).1 (scan_family i f m info).2 := rfl

theorem find_loop_graphics (fams : List VkQueueFamilyProperties) :
    ∀ (i m : Nat) (info : vulkan_physical_device_queue_family_info),
    (find_loop fams i m info).graphics_family_index =
      last_index_with (fun f => f.queueFlags &&& VK_QUEUE_GRAPHICS_BIT != 0) fams i
        info.graphics_family_index := by
  induction fams with
  | nil => intro i m info; rfl
  | cons f rest ih =>
    intro i m info
    rw [find_loop_cons, ih, last_index_with, scan_family_graphics]

theorem find_loop_compute (fams : List VkQueueFamilyProperties) :
    ∀ (i m : Nat) (info : vulkan_physical_device_queue_family_info),
    (find_loop fams i m info).compute_family_index =
      last_index_with (fun f => f.queueFlags &&& VK_QUEUE_COMPUTE_BIT != 0) fams i
        info.compute_family_index := by
  induction fams with
  | nil => intro i m info; rfl
  | cons f rest ih =>
    intro i m info
    rw [find_loop_cons, ih, last_index_with, scan_family_compute]

theorem find_loop_present (fams : List VkQueueFamilyProperties) :
    ∀ (i m : Nat) (info : vulkan_physical_device_queue_family_info),
    (find_loop fams i m info).present_family_index =
      last_index_with (fun f => f.supportsPresent) fams i info.present_family_index := by
  induction fams with
  | nil => intro i m info; rfl
  | cons f rest ih =>
    intro i m info
    rw [find_loop_cons, ih, last_index_with, scan_family_present]

theorem find_loop_transfer_cases (fams : List VkQueueFamilyProperties) :
    ∀ (i m : Nat) (info : vulkan_physical_device_queue_family_info),
    (find_loop fams i m info).transfer_family_index = info.transfer_family_index ∨
      ∃ j, j < fams.length ∧ (find_loop fams i m info).transfer_family_index = i + j ∧
        ((fams.getD j { queueFlags := 0, supportsPresent := false }).queueFlags &&&
          VK_QUEUE_TRANSFER_BIT != 0) = true := by
  induction fams with
  | nil => intro i m info; left; rfl
  | cons f rest ih =>
    intro i m info
    rw [find_loop_cons]
    rcases ih (i + 1) (scan_family i f m info).1 (scan_family i f m info).2 with h | ⟨j, hj, hEq, hp⟩
    · rcases scan_family_transfer_cases i f m info with h0 | ⟨h0, hbit⟩
      · left; rw [h, h0]
      · right
        refine ⟨0, by simp, ?_, ?_⟩
        · rw [h, h0, Nat.add_zero]
        · simpa using hbit
    · right
      refine ⟨j + 1, by simpa using hj, ?_, ?_⟩
      · rw [hEq]; omega
      · simpa using hp

theorem last_index_with_cases (p : VkQueueFamilyProperties → Bool)
    (fams : List VkQueueFamilyProperties) :
    ∀ (i acc : Nat),
    last_index_with p fams i acc = acc ∨
      ∃ j, j < fams.length ∧ last_index_with p fams i acc = i + j ∧
        p (fams.getD j { queueFlags := 0, supportsPresent := false }) = true := by
  induction fams with
  | nil => intro i acc; left; rfl
  | cons f rest ih =>
    intro i acc
    rw [last_index_with]
    rcases ih (i + 1) (if p f then i else acc) with h | ⟨j, hj, hEq, hp⟩
    · by_cases hf : p f
      · right
        refine ⟨0, by simp, ?_, ?_⟩
        · rw [h, if_pos hf, Nat.add_zero]
        · simpa using hf
      · left; rw [h, if_neg hf]
    · right
      refine ⟨j + 1, by simpa using hj, ?_, ?_⟩
      · rw [hEq]; omega
      · simpa using hp

/-! ### Claim theorems -/

/-- C1: vulkan_device_create fetches the transfer queue handle with the
PRESENT family index, not the transfer family index. With the driver's
vkGetDeviceQueue modelled as returning its family-index argument, an
assignment graphics=0, present=1, transfer=2 yields queue handles
(0, 1, 1): the transfer queue handle comes from family 1 (the present
family) instead of family 2 (the transfer family), contradicting the
claimed per-role retrieval. -/
theorem transfer_queue_fetched_from_present_family :
    vulkan_device_obtain_queues (fun fam _ => fam) 0 1 2 = (0, 1, 1) ∧ (1 : Nat) ≠ 2 := by
  decide

/-- C2 counterexample: the value vulkan_swapchain_acquire_next_image_index
returns to its caller is the same boolean FALSE for an out-of-date result
as for a fatal result (here VK_ERROR_DEVICE_LOST), so the retry outcome is
not reported distinctly from a fatal failure. -/
theorem acquire_retry_ret_equals_fatal_ret :
    (vulkan_swapchain_acquire_next_image_index VK_ERROR_OUT_OF_DATE_KHR).ret = false ∧
      (vulkan_swapchain_acquire_next_image_index VK_ERROR_DEVICE_LOST).ret = false := by
  decide

/-- C2 (amended): out-of-date triggers recreate and returns false without
the fatal log; success and suboptimal both return true (the acquired image
index stays usable) with no recreate; any other result logs fatally,
does not recreate, and returns false. The retry outcome is distinct from
success, but the boolean reported to the caller is the same false as in
the fatal case. -/
theorem acquire_next_image_index_classification (result : Int) :
    (result = VK_ERROR_OUT_OF_DATE_KHR →
      vulkan_swapchain_acquire_next_image_index result =
        { recreated := true, fatalLogged := false, ret := false }) ∧
    (result = VK_SUCCESS ∨ result = VK_SUBOPTIMAL_KHR →
      vulkan_swapchain_acquire_next_image_index result =
        { recreated := false, fatalLogged := false, ret := true }) ∧
    (result ≠ VK_ERROR_OUT_OF_DATE_KHR → result ≠ VK_SUCCESS → result ≠ VK_SUBOPTIMAL_KHR →
      vulkan_swapchain_acquire_next_image_index result =
        { recreated := false, fatalLogged := true, ret := false }) := by
  refine ⟨?_, ?_, ?_⟩
  · intro h; subst h; decide
  · rintro (h | h) <;> subst h <;> decide
  · intro h1 h2 h3
    unfold vulkan_swapchain_acquire_next_image_index
    rw [if_neg h1, if_pos ⟨h2, h3⟩]

/-- C2 witness: the amended classification applied at the out-of-date
result. -/
theorem acquire_next_image_index_classification_witness :
    vulkan_swapchain_acquire_next_image_index VK_ERROR_OUT_OF_DATE_KHR =
      { recreated := true, fatalLogged := false, ret := false } :=
  (acquire_next_image_index_classification VK_ERROR_OUT_OF_DATE_KHR).1 rfl

/-- C3 counterexample: with two graphics-capable families, the scan
records family 1 for the graphics role, while the first family whose
bitset contains the graphics bit is family 0 — the first-matching family
does not win. -/
theorem graphics_family_not_first_match :
    (find_device_queue_family_indexes
        [{ queueFlags := 1, supportsPresent := false },
         { queueFlags := 1, supportsPresent := false }]).graphics_family_index = 1 ∧
      first_index_with (fun f => f.queueFlags &&& VK_QUEUE_GRAPHICS_BIT != 0)
        [{ queueFlags := 1, supportsPresent := false },
         { queueFlags := 1, supportsPresent := false }] 0 = 0 ∧
      (1 : Nat) ≠ 0 := by
  decide

/-- C3 (amended): the graphics role (and likewise the compute role) is
assigned to the LAST family in enumeration order whose capability bitset
contains the corresponding bit (every matching family overwrites the
recorded index), and the scan visits every family to the end; the index
stays UNASSIGNED when no family matches. -/
theorem graphics_and_compute_assigned_last_match (fams : List VkQueueFamilyProperties) :
    (find_device_queue_family_indexes fams).graphics_family_index =
      last_index_with (fun f => f.queueFlags &&& VK_QUEUE_GRAPHICS_BIT != 0) fams 0 UNASSIGNED ∧
    (find_device_queue_family_indexes fams).compute_family_index =
      last_index_with (fun f => f.queueFlags &&& VK_QUEUE_COMPUTE_BIT != 0) fams 0 UNASSIGNED := by
  exact ⟨find_loop_graphics fams 0 255 _, find_loop_compute fams 0 255 _⟩

/-- C5: whenever the scan leaves a role assigned (not the (u32)-1
sentinel), the assigned index is a valid family index and that family
satisfies the role's requirement: the graphics/compute/transfer bit for
those roles, and surface presentation support for the present role. -/
theorem assigned_family_has_role_capability (fams : List VkQueueFamilyProperties) :
    ((find_device_queue_family_indexes fams).graphics_family_index ≠ UNASSIGNED →
      (find_device_queue_family_indexes fams).graphics_family_index < fams.length ∧
      ((fams.getD (find_device_queue_family_indexes fams).graphics_family_index
          { queueFlags := 0, supportsPresent := false }).queueFlags &&&
        VK_QUEUE_GRAPHICS_BIT != 0) = true) ∧
    ((find_device_queue_family_indexes fams).compute_family_index ≠ UNASSIGNED →
      (find_device_queue_family_indexes fams).compute_family_index < fams.length ∧
      ((fams.getD (find_device_queue_family_indexes fams).compute_family_index
          { queueFlags := 0, supportsPresent := false }).queueFlags &&&
        VK_QUEUE_COMPUTE_BIT != 0) = true) ∧
    ((find_device_queue_family_indexes fams).transfer_family_index ≠ UNASSIGNED →
      (find_device_queue_family_indexes fams).transfer_family_index < fams.length ∧
      ((fams.getD (find_device_queue_family_indexes fams).transfer_family_index
          { queueFlags := 0, supportsPresent := false }).queueFlags &&&
        VK_QUEUE_TRANSFER_BIT != 0) = true) ∧
    ((find_device_queue_family_indexes fams).present_family_index ≠ UNASSIGNED →
      (find_device_queue_family_indexes fams).present_family_index < fams.length ∧
      (fams.getD (find_device_queue_family_indexes fams).present_family_index
          { queueFlags := 0, supportsPresent := false }).supportsPresent = true) := by
  refine ⟨?_, ?_, ?_, ?_⟩
  · intro hne
    have hg := find_loop_graphics fams 0 255
      { graphics_family_index := UNASSIGNED, present_family_index := UNASSIGNED,
        compute_family_index := UNASSIGNED, transfer_family_index := UNASSIGNED }
    rcases last_index_with_cases (fun f => f.queueFlags &&& VK_QUEUE_GRAPHICS_BIT != 0) fams 0
        UNASSIGNED with h | ⟨j, hj, hEq, hp⟩
    · exact absurd (hg.trans h) hne
    · have hidx : (find_device_queue_family_indexes fams).graphics_family_index = j := by
        rw [find_device_queue_family_indexes, hg, hEq, Nat.zero_add]
      rw [hidx]
      exact ⟨hj, hp⟩
  · intro hne
    have hg := find_loop_compute fams 0 255
      { graphics_family_index := UNASSIGNED, present_family_index := UNASSIGNED,
        compute_family_index := UNASSIGNED, transfer_family_index := UNASSIGNED }
    rcases last_index_with_cases (fun f => f.queueFlags &&& VK_QUEUE_COMPUTE_BIT != 0) fams 0
        UNASSIGNED with h | ⟨j, hj, hEq, hp⟩
    · exact absurd (hg.trans h) hne
    · have hidx : (find_device_queue_family_indexes fams).compute_family_index = j := by
        rw [find_device_queue_family_indexes, hg, hEq, Nat.zero_add]
      rw [hidx]
      exact ⟨hj, hp⟩
  · intro hne
    rcases find_loop_transfer_cases fams 0 255
      { graphics_family_index := UNASSIGNED, present_family_index := UNASSIGNED,
        compute_family_index := UNASSIGNED, transfer_family_index := UNASSIGNED }
      with h | ⟨j, hj, hEq, hp⟩
    · exact absurd h hne
    · have hidx : (find_device_queue_family_indexes fams).transfer_family_index = j := by
        rw [find_device_queue_family_indexes, hEq, Nat.zero_add]
      rw [hidx]
      exact ⟨hj, hp⟩
  · intro hne
    have hg := find_loop_present fams 0 255
      { graphics_family_index := UNASSIGNED, present_family_index := UNASSIGNED,
        compute_family_index := UNASSIGNED, transfer_family_index := UNASSIGNED }
    rcases last_index_with_cases (fun f => f.supportsPresent) fams 0 UNASSIGNED
      with h | ⟨j, hj, hEq, hp⟩
    · exact absurd (hg.trans h) hne
    · have hidx : (find_device_queue_family_indexes fams).present_family_index = j := by
        rw [find_device_queue_family_indexes, hg, hEq, Nat.zero_add]
      rw [hidx]
      exact ⟨hj, hp⟩

/-- C5 witness: the invariant applied to a single family advertising
graphics, compute and transfer and supporting presentation. -/
theorem assigned_family_has_role_capability_witness :
    ((find_device_queue_family_indexes
        [{ queueFlags := 7, supportsPresent := true }]).graphics_family_index < 1 ∧
      ((([{ queueFlags := 7, supportsPresent := true }] : List VkQueueFamilyProperties).getD
          (find_device_queue_family_indexes
            [{ queueFlags := 7, supportsPresent := true }]).graphics_family_index
          { queueFlags := 0, supportsPresent := false }).queueFlags &&&
        VK_QUEUE_GRAPHICS_BIT != 0) = true) ∧
    ((find_device_queue_family_indexes
        [{ queueFlags := 7, supportsPresent := true }]).present_family_index < 1 ∧
      (([{ queueFlags := 7, supportsPresent := true }] : List VkQueueFamilyProperties).getD
          (find_device_queue_family_indexes
            [{ queueFlags := 7, supportsPresent := true }]).present_family_index
          { queueFlags := 0, supportsPresent := false }).supportsPresent = true) :=
  ⟨(assigned_family_has_role_capability
      [{ queueFlags := 7, supportsPresent := true }]).1 (by decide),
   (assigned_family_has_role_capability
      [{ queueFlags := 7, supportsPresent := true }]).2.2.2 (by decide)⟩

/-- C4 counterexample: with graphics=0 and present=transfer=1, the
deduplication (which only compares present and transfer against graphics)
emits three requests, two of them for the shared family index 1 — not one
request per distinct index. -/
theorem shared_present_transfer_index_emits_two_requests :
    ((queue_create_infos 0 1 1).map (fun r => r.queueFamilyIndex)).count 1 = 2 ∧
      (queue_create_infos 0 1 1).length = 3 := by
  decide

/-- C4 (amended): vulkan_device_create emits one request for the graphics
index, plus one for the present index when it differs from the graphics
index, plus one for the transfer index when it differs from the graphics
index — deduplication happens only against the graphics index, so when
present and transfer share an index different from graphics, two requests
are emitted for that shared index. Every emitted request has queue count 1
and priority 1.0. -/
theorem queue_create_requests_dedup_against_graphics_only (g p t : Nat) :
    ((queue_create_infos g p t).map (fun r => r.queueFamilyIndex) =
      [g] ++ (if g = p then [] else [p]) ++ (if g = t then [] else [t])) ∧
    (∀ r ∈ queue_create_infos g p t, r.queueCount = 1 ∧ r.queuePriority = 1) ∧
    (g ≠ p → g ≠ t → p = t →
      ((queue_create_infos g p t).map (fun r => r.queueFamilyIndex)).count p = 2) := by
  have hmap : (queue_create_infos g p t).map (fun r => r.queueFamilyIndex) =
      [g] ++ (if g = p then [] else [p]) ++ (if g = t then [] else [t]) := by
    simp only [queue_create_infos, device_queue_indicies, List.map_append, List.map_cons,
      List.map_nil, beq_iff_eq]
    split_ifs <;> rfl
  refine ⟨hmap, ?_, ?_⟩
  · intro r hr
    simp only [queue_create_infos, List.mem_map] at hr
    obtain ⟨idx, _, hq⟩ := hr
    rw [← hq]
    exact ⟨rfl, rfl⟩
  · intro hgp hgt hpt
    rw [hmap, if_neg hgp, if_neg hgt, ← hpt]
    simp [List.count_append, List.count_singleton, List.count_cons, hgp, Ne.symm hgp]

/-- C4 witness: the amended statement applied at graphics=0,
present=transfer=1, where the shared non-graphics index receives two
requests. -/
theorem queue_create_requests_dedup_witness :
    ((queue_create_infos 0 1 1).map (fun r => r.queueFamilyIndex)).count 1 = 2 :=
  (queue_create_requests_dedup_against_graphics_only 0 1 1).2.2
    (by decide) (by decide) rfl

/-- C6 counterexample: a candidate whose enumerated available-extension
list is empty PASSES vulkan_physical_device_meets_requirements even though
the required extension list contains a name with no match anywhere — the
extension loop is skipped entirely when the available list is empty, so
the candidate is not rejected. -/
theorem empty_available_extension_list_accepted :
    vulkan_physical_device_meets_requirements
      { queue_families := [{ queueFlags := 7, supportsPresent := true }],
        available_extensions := [] }
      { deviceType := 2 } { samplerAnisotropy := true }
      { graphics := true, present := true, compute := false, transfer := true,
        device_extension_names := some ["VK_KHR_swapchain"],
        sampler_anisotropy := true, discrete_gpu := true }
      { formats := [(44, 0)], present_modes := [2] } = true := by
  decide

/-- C6 (amended): a required extension name with no case-sensitive exact
match rejects the candidate only when the candidate's available-extension
list is non-empty; when the available-extension list is empty the
extension check is skipped and reports success, so the candidate is not
rejected on extensions. -/
theorem missing_extension_rejects_only_when_list_nonempty
    (device : VulkanPhysicalDevice) (props : VkPhysicalDeviceProperties)
    (features : VkPhysicalDeviceFeatures) (reqs : vulkan_physical_device_requirements)
    (support : vulkan_swapchain_support_info) (required : List String)
    (h : reqs.device_extension_names = some required) :
    (device.available_extensions ≠ [] →
      (∃ r ∈ required, ∀ a ∈ device.available_extensions, r ≠ a) →
      vulkan_physical_device_meets_requirements device props features reqs support = false) ∧
    (device.available_extensions = [] →
      extension_requirements_match device reqs = true) := by
  constructor
  · intro hne hmiss
    have hext : extension_requirements_match device reqs = false := by
      unfold extension_requirements_match
      rw [h]
      have hlen : (device.available_extensions.length != 0) = true := by
        simp only [bne_iff_ne, ne_eq, List.length_eq_zero]
        exact hne
      dsimp only
      rw [if_pos hlen]
      obtain ⟨r, hr, hno⟩ := hmiss
      refine (Bool.eq_false_iff).mpr ?_
      intro hall
      have := List.all_eq_true.mp hall r hr
      obtain ⟨a, ha, heq⟩ := List.any_eq_true.mp this
      exact hno a ha (by simpa [strings_equal] using heq)
    rw [vulkan_physical_device_meets_requirements]
    split_ifs with h1 h2 h3 h4 h5 <;> try rfl
    exact absurd hext (by simpa using h4)
  · intro hempty
    rw [extension_requirements_match, h, hempty]
    rfl

/-- C6 witness: the amended statement applied to a candidate with a
non-empty available-extension list that lacks the required swapchain
extension; the candidate is rejected. -/
theorem missing_extension_rejects_witness :
    vulkan_physical_device_meets_requirements
      { queue_families := [{ queueFlags := 7, supportsPresent := true }],
        available_extensions := ["VK_KHR_surface"] }
      { deviceType := 2 } { samplerAnisotropy := true }
      { graphics := true, present := true, compute := false, transfer := true,
        device_extension_names := some ["VK_KHR_swapchain"],
        sampler_anisotropy := true, discrete_gpu := true }
      { formats := [(44, 0)], present_modes := [2] } = false :=
  (missing_extension_rejects_only_when_list_nonempty
      { queue_families := [{ queueFlags := 7, supportsPresent := true }],
        available_extensions := ["VK_KHR_surface"] }
      { deviceType := 2 } { samplerAnisotropy := true }
      { graphics := true, present := true, compute := false, transfer := true,
        device_extension_names := some ["VK_KHR_swapchain"],
        sampler_anisotropy := true, discrete_gpu := true }
      { formats := [(44, 0)], present_modes := [2] }
      ["VK_KHR_swapchain"] rfl).1 (by decide) (by decide)

/-- C7 counterexample: with minImageCount = 2 and maxImageCount = 2 the
negotiated count is clamped to 2, which is smaller than
minImageCount + 1 = 3 — the claimed lower bound fails. -/
theorem image_count_below_min_plus_one :
    swapchain_image_count 2 2 = 2 ∧ ¬ (2 + 1 ≤ swapchain_image_count 2 2) := by
  decide

/-- C7 (amended): the negotiated count never exceeds a nonzero
maxImageCount, and it equals minImageCount + 1 (hence meets the claimed
lower bound) whenever maxImageCount is zero or at least
minImageCount + 1; when a nonzero maxImageCount is below
minImageCount + 1 the count is clamped down to maxImageCount. -/
theorem image_count_negotiation (minImageCount maxImageCount : Nat) :
    (maxImageCount > 0 → swapchain_image_count minImageCount maxImageCount ≤ maxImageCount) ∧
    (maxImageCount = 0 ∨ minImageCount + 1 ≤ maxImageCount →
      swapchain_image_count minImageCount maxImageCount = minImageCount + 1) := by
  simp only [swapchain_image_count]
  split_ifs with h <;> constructor <;> intro hx <;> omega

/-- C7 witness: the negotiation applied at minImageCount = 2 with an
unbounded (zero) maximum and at minImageCount = 2, maxImageCount = 4. -/
theorem image_count_negotiation_witness :
    swapchain_image_count 2 0 = 2 + 1 ∧ swapchain_image_count 2 4 ≤ 4 :=
  ⟨(image_count_negotiation 2 0).2 (Or.inl rfl),
   (image_count_negotiation 2 4).1 (by decide)⟩

theorem vulkan_image_destroy_closed (h m v w ht : Nat) :
    vulkan_image_destroy { handle := h, memory := m, view := v, width := w, height := ht } =
      ({ handle := 0, memory := 0, view := 0, width := w, height := ht },
        (if v ≠ 0 then [VulkanDestroyCall.destroyImageView v] else []) ++
        (if m ≠ 0 then [VulkanDestroyCall.freeMemory m] else []) ++
        (if h ≠ 0 then [VulkanDestroyCall.destroyImage h] else [])) := by
  by_cases hv : v = 0 <;> by_cases hm : m = 0 <;> by_cases hh : h = 0 <;>
    simp [vulkan_image_destroy, hv, hm, hh]

/-- C8: vulkan_image_destroy emits its destruction calls in the strict
order view, then memory, then image handle, skipping each step whose
field is null; it nulls all three handle fields; and a second destruction
of the result emits no destruction calls and leaves the image unchanged
(destruction is idempotent). -/
theorem image_destroy_ordered_guarded_idempotent (image : vulkan_image) :
    (vulkan_image_destroy image).2 =
      (if image.view ≠ 0 then [VulkanDestroyCall.destroyImageView image.view] else []) ++
      (if image.memory ≠ 0 then [VulkanDestroyCall.freeMemory image.memory] else []) ++
      (if image.handle ≠ 0 then [VulkanDestroyCall.destroyImage image.handle] else []) ∧
    (vulkan_image_destroy image).1.view = 0 ∧
    (vulkan_image_destroy image).1.memory = 0 ∧
    (vulkan_image_destroy image).1.handle = 0 ∧
    (vulkan_image_destroy (vulkan_image_destroy image).1).2 = [] ∧
    (vulkan_image_destroy (vulkan_image_destroy image).1).1 = (vulkan_image_destroy image).1 := by
  obtain ⟨h, m, v, w, ht⟩ := image
  simp [vulkan_image_destroy_closed]

/-- C9 counterexample: in the debug build with the surface and messenger
present, vulkan_renderer_backend_shutdown destroys the device, then the
surface, then the debug messenger, then the instance — there is no
swapchain teardown step at all, and the claimed sequence (swapchain,
device, debug messenger, surface, instance) is not the one performed. -/
theorem shutdown_order_differs_from_claimed :
    vulkan_renderer_backend_shutdown_order true true true =
      [VulkanResource.device, VulkanResource.surface, VulkanResource.debugMessenger,
        VulkanResource.inst] ∧
    vulkan_renderer_backend_shutdown_order true true true ≠
      [VulkanResource.swapchain, VulkanResource.device, VulkanResource.debugMessenger,
        VulkanResource.surface, VulkanResource.inst] ∧
    VulkanResource.swapchain ∉ vulkan_renderer_backend_shutdown_order true true true := by
  decide

/-- C9 (amended): with the surface and (in debug builds) the messenger
present, backend shutdown tears down in the strict reverse of the
backend's construction order — logical device, then surface, then debug
messenger (debug builds only), then instance; no swapchain step occurs
because this backend version never creates a swapchain. -/
theorem shutdown_is_reverse_of_startup (debug_build : Bool) :
    vulkan_renderer_backend_shutdown_order debug_build true true =
      (backend_startup_order debug_build).reverse ∧
    VulkanResource.swapchain ∉ vulkan_renderer_backend_shutdown_order debug_build true true := by
  cases debug_build <;> decide

/-- C10: the static swapchain destroy (used by both standalone destroy and
recreate) emits the depth-attachment destruction, one view destruction per
tracked image, and the chain-handle destruction, while leaving the
image_count field and the images and views array pointers of the structure
unchanged; the create-side image fetch allocates an array only when its
pointer is null, so the create step of a recreate reports an allocation
exactly when the original pointer was null — a recreate on a swapchain
whose arrays were already allocated reuses them. -/
theorem swapchain_destroy_preserves_arrays_and_create_reuses
    (sw : vulkan_swapchain) (driver_images : List Nat) (view_of : Nat → Nat) :
    ((swapchain_destroy sw).1.image_count = sw.image_count ∧
      (swapchain_destroy sw).1.images = sw.images ∧
      (swapchain_destroy sw).1.views = sw.views) ∧
    (swapchain_destroy sw).2 =
      (vulkan_image_destroy sw.depth_attachment).2 ++
      ((sw.views.getD []).take sw.image_count).map VulkanDestroyCall.destroyImageView ++
      [VulkanDestroyCall.destroySwapchainKHR sw.handle] ∧
    ((swapchain_create_fetch_images driver_images view_of sw).2.1 = sw.images.isNone ∧
      (swapchain_create_fetch_images driver_images view_of sw).2.2 = sw.views.isNone) ∧
    ((vulkan_swapchain_recreate_images driver_images view_of sw).2.1 = sw.images.isNone ∧
      (vulkan_swapchain_recreate_images driver_images view_of sw).2.2 = sw.views.isNone) := by
  refine ⟨⟨rfl, rfl, rfl⟩, rfl, ⟨rfl, rfl⟩, ⟨rfl, rfl⟩⟩

end Kohi
